import Mathlib

/-!
Shallow embedding of the Lung_Xray_AI web application (src/app.py, src/util.py).

Python values that flow through the handlers (JSON bodies, parsed upstream
JSON) are modelled by the inductive `PyVal`.  External libraries (PIL, the
TensorFlow model) enter as explicit parameters: a `PilModel` record of opaque
functions for image open / convert / save / resize, and a scoring function
`Img → ℚ`.  Everything written in the repository itself (base64 handling via
`base64.b64decode`, the data-URI header regex, the route handlers, the
threshold classifier) is embedded concretely.
-/

namespace LungXray

/-- Python/JSON values as they appear in request bodies and parsed JSON. -/
inductive PyVal where
  | none : PyVal
  | bool (b : Bool) : PyVal
  | int (n : Int) : PyVal
  | str (s : String) : PyVal
  | list (l : List PyVal) : PyVal
  | dict (kvs : List (String × PyVal)) : PyVal

/-- First-match association lookup, modelling Python dict access
(JSON-derived dicts have unique string keys). -/
def dget {α : Type} : List (String × α) → String → Option α
  | [], _ => Option.none
  | (k, v) :: rest, key => if k = key then some v else dget rest key

/-- Python truthiness (`bool(x)`) restricted to the values of `PyVal`. -/
def pyTruthy : PyVal → Bool
  | .none => false
  | .bool b => b
  | .int n => n != 0
  | .str s => s != ""
  | .list l => !l.isEmpty
  | .dict kvs => !kvs.isEmpty

/-! ## Base64 (`base64.b64encode` / `base64.b64decode`) -/

/-- The standard base64 alphabet. -/
def b64chars : List Char :=
  "ABCDEFGHIJKLMNOPQRSTUVWXYZabcdefghijklmnopqrstuvwxyz0123456789+/".toList

/-- Character of a 6-bit value. -/
def b64charOf (n : Nat) : Char := b64chars.getD n 'A'

/-- Index of a character in the base64 alphabet. -/
def b64index (c : Char) : Option Nat := b64chars.findIdx? (· == c)

/-- `base64.b64encode` on a byte list (bytes are naturals `< 256`). -/
def b64encodeChunks : List Nat → List Char
  | [] => []
  | [b1] => [b64charOf (b1 / 4), b64charOf (b1 % 4 * 16), '=', '=']
  | [b1, b2] =>
    [b64charOf (b1 / 4), b64charOf (b1 % 4 * 16 + b2 / 16), b64charOf (b2 % 16 * 4), '=']
  | b1 :: b2 :: b3 :: rest =>
    b64charOf (b1 / 4) :: b64charOf (b1 % 4 * 16 + b2 / 16) ::
      b64charOf (b2 % 16 * 4 + b3 / 64) :: b64charOf (b3 % 64) :: b64encodeChunks rest

/-- `base64.b64decode` on a character list; `Option.none` models the decoder
raising (`binascii.Error`). -/
def b64decodeChunks : List Char → Option (List Nat)
  | [] => some []
  | c1 :: c2 :: c3 :: c4 :: rest =>
    if rest.isEmpty && c3 == '=' && c4 == '=' then
      match b64index c1, b64index c2 with
      | some i1, some i2 => some [i1 * 4 + i2 / 16]
      | _, _ => Option.none
    else if rest.isEmpty && c4 == '=' then
      match b64index c1, b64index c2, b64index c3 with
      | some i1, some i2, some i3 => some [i1 * 4 + i2 / 16, i2 % 16 * 16 + i3 / 4]
      | _, _, _ => Option.none
    else
      match b64index c1, b64index c2, b64index c3, b64index c4, b64decodeChunks rest with
      | some i1, some i2, some i3, some i4, some bs =>
        some ((i1 * 4 + i2 / 16) :: (i2 % 16 * 16 + i3 / 4) :: (i3 % 4 * 64 + i4) :: bs)
      | _, _, _, _, _ => Option.none
  | _ => Option.none

/-! ## The data-URI header regex `^data:image\/[a-zA-Z]+;base64,` -/

/-- Consume an exact literal from the front; `Option.none` when it does not match. -/
def dropLit : List Char → List Char → Option (List Char)
  | [], cs => some cs
  | _ :: _, [] => Option.none
  | l :: ls, c :: cs => if c = l then dropLit ls cs else Option.none

/-- Consume a maximal run of ASCII letters (`[a-zA-Z]*`). -/
def dropAlphaRun : List Char → List Char
  | [] => []
  | c :: cs => if c.isAlpha then dropAlphaRun cs else c :: cs

/-- `re.sub(r'^data:image\/[a-zA-Z]+;base64,', '', s)`: strip the anchored
data-URI header once if it matches, otherwise return the input unchanged.
Because `[a-zA-Z]+` can never consume `;`, maximal munch agrees with the
backtracking regex here. -/
def stripDataHeader (cs : List Char) : List Char :=
  match dropLit "data:image/".toList cs with
  | Option.none => cs
  | some rest =>
    match rest with
    | [] => cs
    | c :: rest2 =>
      if c.isAlpha then
        match dropLit ";base64,".toList (dropAlphaRun rest2) with
        | some tl => tl
        | Option.none => cs
      else cs

/-! ## PIL as an opaque external model -/

/-- The PIL / numpy operations used by the repository, treated as opaque
external functions: `Image.open` on bytes (`Option.none` models a raised
parse error), `.mode`, `.convert("RGB")`, PNG serialisation via `img.save`,
`Image.fromarray(arr.astype('uint8'), 'RGB')`, `np.array(img)`, and the
`save-as-JPEG + image.load_img(..., target_size=(64, 64))` step of
`/predict`. -/
structure PilModel (Img Arr : Type) where
  openImg : List Nat → Option Img
  mode : Img → String
  convertRGB : Img → Img
  savePNG : Img → List Nat
  fromarray : Arr → Img
  toArray : Img → Arr
  loadResized : Img → Img

/-- Error kinds of `util.base64_to_pil`: the explicit `ValueError` for bad
input, and the `ValueError` wrapping any decode/parse failure. -/
inductive DecodeErrKind where
  | invalidInput : DecodeErrKind
  | decodeError : DecodeErrKind
deriving DecidableEq

/-- A raised `ValueError` of `util.base64_to_pil`. -/
structure DecodeErr where
  kind : DecodeErrKind
  msg : String
deriving DecidableEq

/-- Resolution of the incoming payload to the candidate base64 string:
`data.get("image", "")` for dicts, `data or ""` otherwise
(src/util.py lines 20-24). -/
def resolveImageField (data : PyVal) : PyVal :=
  match data with
  | .dict kvs => (dget kvs "image").getD (.str "")
  | _ => if pyTruthy data then data else .str ""

/-- `util.base64_to_pil` (src/util.py lines 9-37).  The emptiness test
`not img_base64.strip()` holds exactly when every character is whitespace. -/
def base64_to_pil {Img Arr : Type} (P : PilModel Img Arr) (data : PyVal) :
    Except DecodeErr Img :=
  match resolveImageField data with
  | .str s =>
    if s.data.all Char.isWhitespace then
      .error ⟨.invalidInput, "Invalid base64 input: must be a non-empty string"⟩
    else
      match b64decodeChunks (stripDataHeader s.data) with
      | Option.none =>
        .error ⟨.decodeError, "Failed to decode base64 image: Invalid base64-encoded string"⟩
      | some bytes =>
        match P.openImg bytes with
        | Option.none =>
          .error ⟨.decodeError, "Failed to decode base64 image: cannot identify image file"⟩
        | some img => .ok (P.convertRGB img)
  | _ => .error ⟨.invalidInput, "Invalid base64 input: must be a non-empty string"⟩

/-- The possible arguments of `util.np_to_base64`: a numpy array or a PIL
image (the latter is what `base64_to_pil` returns). -/
inductive NpInput (Img Arr : Type) where
  | ndarray (a : Arr) : NpInput Img Arr
  | pilImage (i : Img) : NpInput Img Arr

/-- `util.np_to_base64` (src/util.py lines 40-50): rejects anything that is
not a numpy array with `TypeError("Expected numpy array")`, otherwise returns
a PNG data URI. -/
def np_to_base64 {Img Arr : Type} (P : PilModel Img Arr) :
    NpInput Img Arr → Except String String
  | .ndarray a =>
    .ok ("data:image/png;base64," ++ String.mk (b64encodeChunks (P.savePNG (P.fromarray a))))
  | .pilImage _ => .error "Expected numpy array"

/-! ## app.py: classifier, auth gate, responses -/

/-- The threshold classifier of `/predict`
(src/app.py line 139: `"PNEUMONIA" if result > 0.5 else "NORMAL"`).
The model's float score is embedded as an exact rational; the literal `0.5`
is exactly representable in both worlds, so the comparison is faithful. -/
def classify (score : ℚ) : String :=
  if score > 0.5 then "PNEUMONIA" else "NORMAL"

/-- Order on the two labels used to state monotonicity of `classify`. -/
def labelRank (label : String) : Nat :=
  if label = "NORMAL" then 0 else 1

/-- An incoming HTTP request: the Flask session flag (`session['user']`),
the cookie jar, and the parsed JSON body (`request.json`). -/
structure Req where
  sessionUser : Bool
  cookies : List (String × String)
  body : PyVal

/-- `app._is_authenticated` (src/app.py lines 46-54): session flag set, or a
present, non-empty `sb-access-token` cookie. -/
def isAuthenticated (req : Req) : Bool :=
  req.sessionUser ||
    (match dget req.cookies "sb-access-token" with
     | some t => t.length != 0
     | Option.none => false)

/-- A `Set-Cookie` issued via `resp.set_cookie`. -/
structure CookieSet where
  name : String
  value : String
  httponly : Bool
  secure : Bool
  samesite : String
  path : String
  maxAge : Nat
deriving DecidableEq

/-- A handler response: status code, `jsonify` keyword fields, cookies set. -/
structure HttpResp where
  status : Nat
  body : List (String × PyVal)
  cookies : List CookieSet

/-- Python exceptions that escape or are caught inside handlers. -/
inductive PyErrKind where
  | keyError : PyErrKind
  | indexError : PyErrKind
  | typeError : PyErrKind
  | attributeError : PyErrKind
deriving DecidableEq

/-- A raised Python exception with its `str(e)` message. -/
structure PyErr where
  kind : PyErrKind
  msg : String
deriving DecidableEq

/-- Python type name, used in `TypeError` messages. -/
def pyTypeName : PyVal → String
  | .none => "NoneType"
  | .bool _ => "bool"
  | .int _ => "int"
  | .str _ => "str"
  | .list _ => "list"
  | .dict _ => "dict"

/-- Python `v.get(key, default)`: raises `AttributeError` unless `v` is a dict. -/
def pyGetAttrD (v : PyVal) (key : String) (dflt : PyVal) : Except PyErr PyVal :=
  match v with
  | .dict kvs => .ok ((dget kvs key).getD dflt)
  | other =>
    .error ⟨.attributeError, "'" ++ pyTypeName other ++ "' object has no attribute 'get'"⟩

/-- Python subscript `v[key]` with a string key. -/
def getItemS (v : PyVal) (key : String) : Except PyErr PyVal :=
  match v with
  | .dict kvs =>
    match dget kvs key with
    | some x => .ok x
    | Option.none => .error ⟨.keyError, "'" ++ key ++ "'"⟩
  | .str _ => .error ⟨.typeError, "string indices must be integers"⟩
  | .list _ => .error ⟨.typeError, "list indices must be integers or slices, not str"⟩
  | other => .error ⟨.typeError, "'" ++ pyTypeName other ++ "' object is not subscriptable"⟩

/-- Python subscript `v[i]` with a non-negative integer index.  Dicts in this
model have string keys only (they come from parsed JSON), so an integer key
is a `KeyError`. -/
def getItemN (v : PyVal) (i : Nat) : Except PyErr PyVal :=
  match v with
  | .dict _ => .error ⟨.keyError, toString i⟩
  | .list l =>
    match l.get? i with
    | some x => .ok x
    | Option.none => .error ⟨.indexError, "list index out of range"⟩
  | .str s =>
    match s.data.get? i with
    | some c => .ok (.str (String.mk [c]))
    | Option.none => .error ⟨.indexError, "string index out of range"⟩
  | other => .error ⟨.typeError, "'" ++ pyTypeName other ++ "' object is not subscriptable"⟩

/-- `data['candidates'][0]['content']['parts'][0]['text']`
(src/app.py line 186). -/
def extractText (data : PyVal) : Except PyErr PyVal := do
  let a ← getItemS data "candidates"
  let b ← getItemN a 0
  let c ← getItemS b "content"
  let d ← getItemS c "parts"
  let e ← getItemN d 0
  getItemS e "text"

/-! ## app.py: route handlers -/

/-- `app.create_session` (src/app.py lines 78-101).  `cookieSecureEnv` is
`os.environ.get('COOKIE_SECURE')`; `payload` is `request.get_json(silent=True)`
(`Option.none` when the body is not parseable JSON).  A truthy non-dict body
makes `data.get` raise outside any `try`, hence the `Except`; a truthy
non-string token would make `set_cookie` reject the value. -/
def create_session (cookieSecureEnv : Option String) (payload : Option PyVal) :
    Except PyErr HttpResp :=
  let data := match payload with
    | some p => if pyTruthy p then p else .dict []
    | Option.none => .dict []
  match pyGetAttrD data "access_token" .none with
  | .error e => .error e
  | .ok tok =>
    if !pyTruthy tok then
      .ok ⟨400, [("error", .str "missing access_token")], []⟩
    else
      match tok with
      | .str t =>
        .ok ⟨200, [("ok", .bool true)],
          [⟨"sb-access-token", t, true, cookieSecureEnv.getD "0" == "1", "Lax", "/",
            60 * 60 * 24 * 7⟩]⟩
      | other => .error ⟨.typeError, "cookie value must be str, got " ++ pyTypeName other⟩

/-- `/predict` (src/app.py lines 121-145): auth gate, decode, save + reload at
64x64 (`P.loadResized`), score, threshold.  Everything after the gate sits in
one `try`, so a decode failure becomes a 500 with the exception message. -/
def predict {Img Arr : Type} (P : PilModel Img Arr) (score : Img → ℚ) (req : Req) :
    HttpResp :=
  if !isAuthenticated req then
    ⟨401, [("error", .str "unauthorized")], []⟩
  else
    match base64_to_pil P req.body with
    | .error e => ⟨500, [("error", .str e.msg)], []⟩
    | .ok img =>
      let result := score (P.loadResized img)
      ⟨200, [("result", .str (classify result))], []⟩

/-- The upstream response seen by `/gemini` after `requests.post` returns:
status code, `content-type` header (defaulted to `''`), the result of
`r.json()` (`Option.none` models a JSON parse failure, which raises), and
`r.text`.  Per the `requests` library, `r.ok` is `statusCode < 400`. -/
structure Upstream where
  statusCode : Nat
  contentType : String
  jsonBody : Option PyVal
  text : String

/-- `r.headers.get('content-type', '').startswith('application/json')`. -/
def isJsonCT (up : Upstream) : Bool :=
  "application/json".toList.isPrefixOf up.contentType.data

/-- The fallback error string `f'HTTP {r.status_code}: {r.text}'`. -/
def geminiFallback (up : Upstream) : String :=
  "HTTP " ++ toString up.statusCode ++ ": " ++ up.text

/-- The non-ok branch of `/gemini` (src/app.py lines 176-180):
`error_data.get('error', {}).get('message', fallback)`.  An
`AttributeError` from `.get` on a non-dict is caught by the enclosing
`except Exception` and becomes a 500. -/
def geminiNotOk (errorData : PyVal) (up : Upstream) : HttpResp :=
  match pyGetAttrD errorData "error" (.dict []) with
  | .error e => ⟨500, [("error", .str "unexpected error"), ("detail", .str e.msg)], []⟩
  | .ok errVal =>
    match pyGetAttrD errVal "message" (.str (geminiFallback up)) with
    | .error e => ⟨500, [("error", .str "unexpected error"), ("detail", .str e.msg)], []⟩
    | .ok msg => ⟨502, [("error", msg), ("detail", errorData)], []⟩

/-- The `try` block of `/gemini` (src/app.py lines 165-198).  `outbound` is
the result of `requests.post`; `.error` models a raised
`requests.RequestException` (which includes the `JSONDecodeError` raised by
`r.json()` on an unparseable body). -/
def geminiTry (outbound : Except String Upstream) : HttpResp :=
  match outbound with
  | .error msg => ⟨502, [("error", .str "gemini request failed"), ("detail", .str msg)], []⟩
  | .ok up =>
    if 400 ≤ up.statusCode then
      if isJsonCT up then
        match up.jsonBody with
        | Option.none =>
          ⟨502, [("error", .str "gemini request failed"),
            ("detail", .str "Expecting value: line 1 column 1 (char 0)")], []⟩
        | some errorData => geminiNotOk errorData up
      else geminiNotOk (.dict []) up
    else
      match up.jsonBody with
      | Option.none =>
        ⟨502, [("error", .str "gemini request failed"),
          ("detail", .str "Expecting value: line 1 column 1 (char 0)")], []⟩
      | some data =>
        match extractText data with
        | .ok t => ⟨200, [("reply", t), ("raw", data)], []⟩
        | .error e =>
          match e.kind with
          | .keyError => ⟨200, [("reply", .str ""), ("raw", data)], []⟩
          | .indexError => ⟨200, [("reply", .str ""), ("raw", data)], []⟩
          | _ => ⟨500, [("error", .str "unexpected error"), ("detail", .str e.msg)], []⟩

/-- `app.gemini_proxy` (src/app.py lines 148-198).  `payload` is
`request.get_json(silent=True)`; `apiKey` is
`os.environ.get('GEMINI_API_KEY')`.  `payload.get(...)` runs outside the
`try`, so its `AttributeError` escapes as `.error`. -/
def gemini_proxy (req : Req) (payload : Option PyVal) (apiKey : Option String)
    (outbound : Except String Upstream) : Except PyErr HttpResp :=
  if !isAuthenticated req then
    .ok ⟨401, [("error", .str "unauthorized")], []⟩
  else
    let data := match payload with
      | some p => if pyTruthy p then p else .dict []
      | Option.none => .dict []
    match pyGetAttrD data "message" (.str "") with
    | .error e => .error e
    | .ok userMessage =>
      match pyGetAttrD data "model" (.str "gemini-1.5-flash") with
      | .error e => .error e
      | .ok _ =>
        if !pyTruthy userMessage then
          .ok ⟨400, [("error", .str "message is required")], []⟩
        else
          match apiKey with
          | Option.none =>
            .ok ⟨500, [("error", .str "server not configured: GEMINI_API_KEY missing")], []⟩
          | some k =>
            if k = "" then
              .ok ⟨500, [("error", .str "server not configured: GEMINI_API_KEY missing")], []⟩
            else .ok (geminiTry outbound)

/-! ## A concrete instantiation of the external-library model

Used to evaluate the embedding on closed inputs: an image is just its byte
list (restricted to bytes), PNG serialisation is the identity, and every
image is in RGB mode. -/

/-- Concrete image type: a list of bytes. -/
def ImgM : Type := { l : List Nat // ∀ b ∈ l, b < 256 }

/-- Concrete `PilModel` over `ImgM`: `openImg` succeeds exactly on byte
lists, serialisation is the identity. -/
def pilM : PilModel ImgM ImgM :=
  ⟨fun bs => if h : ∀ b ∈ bs, b < 256 then some ⟨bs, h⟩ else Option.none,
   fun _ => "RGB", id, Subtype.val, id, id, id⟩

/-- The literal composition `np_to_base64(base64_to_pil(x))` over the
concrete model: decode hands its result — a PIL image — straight to encode. -/
def encodeAfterDecode (x : PyVal) : Except String String :=
  match base64_to_pil pilM x with
  | .ok img => np_to_base64 pilM (.pilImage img)
  | .error e => .error e.msg

/-! ## Lemmas about the base64 embedding -/

/-- The encoder's character table inverts pointwise on 6-bit values. -/
theorem b64index_b64charOf : ∀ n, n < 64 → b64index (b64charOf n) = some n := by decide

/-- Every character the encoder emits through the table lies in the alphabet. -/
theorem b64charOf_mem_b64chars (n : Nat) : b64charOf n ∈ b64chars := by
  by_cases h : n < b64chars.length
  · rw [b64charOf, List.getD_eq_getElem b64chars 'A' h]
    exact List.getElem_mem h
  · rw [b64charOf, List.getD_eq_default b64chars 'A' (Nat.le_of_not_lt h)]
    decide

/-- Characters from the table are never the padding character. -/
theorem b64charOf_ne_pad (n : Nat) : (b64charOf n == '=') = false := by
  have h := b64charOf_mem_b64chars n
  rw [beq_eq_false_iff_ne]
  intro heq
  rw [heq] at h
  revert h
  decide

/-- Decoding inverts encoding on byte lists (`b64decode ∘ b64encode = id`). -/
theorem b64_roundtrip :
    ∀ bs : List Nat, (∀ b ∈ bs, b < 256) →
      b64decodeChunks (b64encodeChunks bs) = some bs
  | [], _ => rfl
  | [b1], h => by
    have h1 : b1 < 256 := h b1 (by simp)
    have e1 : b64index (b64charOf (b1 / 4)) = some (b1 / 4) :=
      b64index_b64charOf _ (by omega)
    have e2 : b64index (b64charOf (b1 % 4 * 16)) = some (b1 % 4 * 16) :=
      b64index_b64charOf _ (by omega)
    simp only [b64encodeChunks, b64decodeChunks, List.isEmpty_nil, Bool.true_and, e1, e2]
    norm_num
    omega
  | [b1, b2], h => by
    have h1 : b1 < 256 := h b1 (by simp)
    have h2 : b2 < 256 := h b2 (by simp)
    have e1 : b64index (b64charOf (b1 / 4)) = some (b1 / 4) :=
      b64index_b64charOf _ (by omega)
    have e2 : b64index (b64charOf (b1 % 4 * 16 + b2 / 16)) = some (b1 % 4 * 16 + b2 / 16) :=
      b64index_b64charOf _ (by omega)
    have e3 : b64index (b64charOf (b2 % 16 * 4)) = some (b2 % 16 * 4) :=
      b64index_b64charOf _ (by omega)
    simp only [b64encodeChunks, b64decodeChunks, List.isEmpty_nil, Bool.true_and,
      b64charOf_ne_pad, Bool.and_false, Bool.false_and, Bool.and_true, if_false,
      Bool.false_eq_true, e1, e2, e3]
    norm_num
    constructor
    · omega
    · omega
  | b1 :: b2 :: b3 :: rest, h => by
    have h1 : b1 < 256 := h b1 (by simp)
    have h2 : b2 < 256 := h b2 (by simp)
    have h3 : b3 < 256 := h b3 (by simp)
    have hrest : ∀ b ∈ rest, b < 256 := fun b hb => h b (by simp [hb])
    have e1 : b64index (b64charOf (b1 / 4)) = some (b1 / 4) :=
      b64index_b64charOf _ (by omega)
    have e2 : b64index (b64charOf (b1 % 4 * 16 + b2 / 16)) = some (b1 % 4 * 16 + b2 / 16) :=
      b64index_b64charOf _ (by omega)
    have e3 : b64index (b64charOf (b2 % 16 * 4 + b3 / 64)) = some (b2 % 16 * 4 + b3 / 64) :=
      b64index_b64charOf _ (by omega)
    have e4 : b64index (b64charOf (b3 % 64)) = some (b3 % 64) :=
      b64index_b64charOf _ (by omega)
    have ih := b64_roundtrip rest hrest
    simp only [b64encodeChunks, b64decodeChunks, b64charOf_ne_pad, Bool.and_false,
      Bool.false_and, if_false, Bool.false_eq_true, e1, e2, e3, e4, ih]
    norm_num
    refine ⟨by omega, by omega, by omega⟩

/-- Every character of an encoded string is in the alphabet or is padding. -/
theorem b64encode_chars :
    ∀ bs : List Nat, ∀ c ∈ b64encodeChunks bs, c ∈ b64chars ∨ c = '='
  | [], _, hc => by simp [b64encodeChunks] at hc
  | [b1], c, hc => by
    simp only [b64encodeChunks, List.mem_cons, List.not_mem_nil, or_false] at hc
    rcases hc with h | h | h | h
    all_goals simp [h, b64charOf_mem_b64chars]
  | [b1, b2], c, hc => by
    simp only [b64encodeChunks, List.mem_cons, List.not_mem_nil, or_false] at hc
    rcases hc with h | h | h | h
    all_goals simp [h, b64charOf_mem_b64chars]
  | b1 :: b2 :: b3 :: rest, c, hc => by
    simp only [b64encodeChunks, List.mem_cons] at hc
    rcases hc with h | h | h | h | h
    · simp [h, b64charOf_mem_b64chars]
    · simp [h, b64charOf_mem_b64chars]
    · simp [h, b64charOf_mem_b64chars]
    · simp [h, b64charOf_mem_b64chars]
    · exact b64encode_chars rest c h

/-- No alphabet character is whitespace. -/
theorem b64chars_not_whitespace :
    ∀ c ∈ b64chars, c.isWhitespace = false := by decide

/-- An encoded non-empty byte list is not all whitespace (so it passes the
`not img_base64.strip()` test). -/
theorem b64encode_not_all_whitespace (bs : List Nat) (h : bs ≠ []) :
    (b64encodeChunks bs).all Char.isWhitespace = false := by
  match bs with
  | [] => exact absurd rfl h
  | [b1] =>
    simp only [b64encodeChunks, List.all_cons, Bool.and_eq_false_imp]
    simp [b64chars_not_whitespace _ (b64charOf_mem_b64chars (b1 / 4))]
  | [b1, b2] =>
    simp only [b64encodeChunks, List.all_cons]
    simp [b64chars_not_whitespace _ (b64charOf_mem_b64chars (b1 / 4))]
  | b1 :: b2 :: b3 :: rest =>
    simp only [b64encodeChunks, List.all_cons]
    simp [b64chars_not_whitespace _ (b64charOf_mem_b64chars (b1 / 4))]

/-! ## Lemmas about the header stripper -/

/-- A successful literal match decomposes the input. -/
theorem dropLit_sound :
    ∀ lit cs rest, dropLit lit cs = some rest → cs = lit ++ rest
  | [], cs, rest, h => by
    simp only [dropLit, Option.some.injEq] at h
    simp [h]
  | l :: ls, [], rest, h => by simp [dropLit] at h
  | l :: ls, c :: cs, rest, h => by
    simp only [dropLit] at h
    split at h
    · next heq =>
      have := dropLit_sound ls cs rest h
      simp [heq, this]
    · exact absurd h (by simp)

/-- The literal matcher succeeds on its own literal plus anything. -/
theorem dropLit_append :
    ∀ lit rest, dropLit lit (lit ++ rest) = some rest
  | [], rest => rfl
  | l :: ls, rest => by
    simp only [List.cons_append, dropLit, if_pos rfl]
    exact dropLit_append ls rest

/-- The alpha run stops exactly at the first non-letter. -/
theorem dropAlphaRun_append :
    ∀ ext tl, (∀ c ∈ ext, c.isAlpha) → tl ≠ [] → (∀ c ∈ tl.head?, c.isAlpha = false) →
      dropAlphaRun (ext ++ tl) = tl
  | [], tl, _, htl, hhd => by
    match tl with
    | [] => exact absurd rfl htl
    | c :: tl' =>
      have : c.isAlpha = false := hhd c rfl
      simp [dropAlphaRun, this]
  | e :: ext', tl, hext, htl, hhd => by
    have he : e.isAlpha := hext e (by simp)
    simp only [List.cons_append, dropAlphaRun, if_pos he]
    exact dropAlphaRun_append ext' tl (fun c hc => hext c (by simp [hc])) htl hhd

/-- On a full header `data:image/<ext>;base64,` followed by anything, the
stripper removes exactly the header. -/
theorem stripDataHeader_exact (ext rest : List Char) (hne : ext ≠ [])
    (halpha : ∀ c ∈ ext, c.isAlpha) :
    stripDataHeader ("data:image/".toList ++ ext ++ ";base64,".toList ++ rest) = rest := by
  have h1 : dropLit "data:image/".toList
      ("data:image/".toList ++ (ext ++ (";base64,".toList ++ rest)))
      = some (ext ++ (";base64,".toList ++ rest)) := dropLit_append _ _
  match ext with
  | [] => exact absurd rfl hne
  | e :: ext' =>
    have he : e.isAlpha := halpha e (by simp)
    have hsemi : (';' : Char).isAlpha = false := by decide
    have hrun : dropAlphaRun (ext' ++ (';' :: ("base64,".toList ++ rest)))
        = ';' :: ("base64,".toList ++ rest) :=
      dropAlphaRun_append ext' _ (fun c hc => halpha c (by simp [hc])) (by simp)
        (by intro c hc; simp only [List.head?] at hc; rw [Option.mem_def, Option.some.injEq] at hc; rw [← hc]; decide)
    have hlit2 : dropLit ";base64,".toList (';' :: ("base64,".toList ++ rest)) = some rest := by
      rw [show ';' :: ("base64,".toList ++ rest) = (';' :: "base64,".toList) ++ rest from by simp]
      rw [show (';' :: "base64,".toList : List Char) = ";base64,".toList from by decide]
      exact dropLit_append _ _
    simp only [stripDataHeader, List.append_assoc, List.cons_append] at *
    rw [h1]
    simp only [if_pos he]
    rw [show ext' ++ (";base64,".toList ++ rest) = ext' ++ (';' :: ("base64,".toList ++ rest)) by simp]
    rw [hrun, hlit2]

/-- On a string containing no `:` at all — in particular on plain base64
payloads — the stripper is the identity. -/
theorem stripDataHeader_noop (cs : List Char) (h : ∀ c ∈ cs, c ∈ b64chars ∨ c = '=') :
    stripDataHeader cs = cs := by
  rcases hd : dropLit "data:image/".toList cs with _ | rest
  · simp only [stripDataHeader]
    rw [hd]
  · exfalso
    have := dropLit_sound _ _ _ hd
    have hcolon : (':' : Char) ∈ cs := by
      rw [this]
      simp only [List.mem_append]
      left
      decide
    rcases h ':' hcolon with hmem | heq
    · revert hmem; decide
    · exact absurd heq (by decide)

/-- An encoded non-empty byte list is a non-empty character list. -/
theorem b64encode_ne_nil : ∀ bs : List Nat, bs ≠ [] → b64encodeChunks bs ≠ []
  | [], h => absurd rfl h
  | [_], _ => by simp [b64encodeChunks]
  | [_, _], _ => by simp [b64encodeChunks]
  | _ :: _ :: _ :: _, _ => by simp [b64encodeChunks]

/-! ## Claim C1 -/

/-- Claim C1: the `/predict` label is `"PNEUMONIA"` exactly when the score
exceeds `0.5`; the threshold is exact (`classify 0.5 = "NORMAL"`,
`classify 0.5000001 = "PNEUMONIA"`) and the mapping is monotonic in the
score (with labels ordered `NORMAL < PNEUMONIA` via `labelRank`). -/
theorem classify_threshold_exact_monotone :
    classify (0.5 : ℚ) = "NORMAL" ∧
    classify (0.5000001 : ℚ) = "PNEUMONIA" ∧
    (∀ s : ℚ, 0.5 < s → classify s = "PNEUMONIA") ∧
    (∀ s : ℚ, s ≤ 0.5 → classify s = "NORMAL") ∧
    (∀ s t : ℚ, s ≤ t → labelRank (classify s) ≤ labelRank (classify t)) := by
  refine ⟨?_, ?_, ?_, ?_, ?_⟩
  · unfold classify
    norm_num
  · unfold classify
    norm_num
  · intro s hs
    unfold classify
    rw [if_pos hs]
  · intro s hs
    unfold classify
    rw [if_neg (not_lt.mpr hs)]
  · intro s t hst
    by_cases hs : (0.5 : ℚ) < s
    · have ht : (0.5 : ℚ) < t := lt_of_lt_of_le hs hst
      unfold classify
      rw [if_pos hs, if_pos ht]
    · unfold classify
      rw [if_neg hs]
      simp [labelRank]

/-- Witness for C1 at concrete scores. -/
theorem classify_threshold_exact_monotone_witness :
    classify (0.75 : ℚ) = "PNEUMONIA" ∧ classify (0.25 : ℚ) = "NORMAL" ∧
    labelRank (classify (0.25 : ℚ)) ≤ labelRank (classify (0.75 : ℚ)) :=
  ⟨classify_threshold_exact_monotone.2.2.1 0.75 (by norm_num),
   classify_threshold_exact_monotone.2.2.2.1 0.25 (by norm_num),
   classify_threshold_exact_monotone.2.2.2.2 0.25 0.75 (by norm_num)⟩

/-! ## Claim C10 -/

/-- Claim C10: `base64_to_pil` on `None`, on a dict without an `"image"`
key, and on dicts whose `"image"` value is not a non-empty string, raises
exactly `ValueError("Invalid base64 input: must be a non-empty string")`
(no `KeyError`/`AttributeError`): the missing key and the `None` payload
are both normalised to `""` before the non-empty-string check. -/
theorem base64_to_pil_none_or_missing_key {Img Arr : Type} (P : PilModel Img Arr) :
    (base64_to_pil P .none =
      .error ⟨.invalidInput, "Invalid base64 input: must be a non-empty string"⟩) ∧
    (∀ kvs, dget kvs "image" = Option.none →
      base64_to_pil P (.dict kvs) =
        .error ⟨.invalidInput, "Invalid base64 input: must be a non-empty string"⟩) ∧
    (∀ kvs v, dget kvs "image" = some v → (∀ s, v ≠ .str s) →
      base64_to_pil P (.dict kvs) =
        .error ⟨.invalidInput, "Invalid base64 input: must be a non-empty string"⟩) ∧
    (∀ kvs, dget kvs "image" = some (.str "") →
      base64_to_pil P (.dict kvs) =
        .error ⟨.invalidInput, "Invalid base64 input: must be a non-empty string"⟩) := by
  refine ⟨rfl, ?_, ?_, ?_⟩
  · intro kvs h
    simp [base64_to_pil, resolveImageField, h]
  · intro kvs v h hv
    cases v with
    | str s => exact absurd rfl (hv s)
    | none => simp [base64_to_pil, resolveImageField, h]
    | bool b => simp [base64_to_pil, resolveImageField, h]
    | int n => simp [base64_to_pil, resolveImageField, h]
    | list l => simp [base64_to_pil, resolveImageField, h]
    | dict d => simp [base64_to_pil, resolveImageField, h]
  · intro kvs h
    simp [base64_to_pil, resolveImageField, h]

/-- Witness for C10 on concrete dicts. -/
theorem base64_to_pil_none_or_missing_key_witness :
    base64_to_pil pilM .none =
      .error ⟨.invalidInput, "Invalid base64 input: must be a non-empty string"⟩ ∧
    base64_to_pil pilM (.dict [("img", .str "AA==")]) =
      .error ⟨.invalidInput, "Invalid base64 input: must be a non-empty string"⟩ ∧
    base64_to_pil pilM (.dict [("image", .int 3)]) =
      .error ⟨.invalidInput, "Invalid base64 input: must be a non-empty string"⟩ ∧
    base64_to_pil pilM (.dict [("image", .str "")]) =
      .error ⟨.invalidInput, "Invalid base64 input: must be a non-empty string"⟩ :=
  ⟨(base64_to_pil_none_or_missing_key pilM).1,
   (base64_to_pil_none_or_missing_key pilM).2.1 [("img", .str "AA==")] rfl,
   (base64_to_pil_none_or_missing_key pilM).2.2.1 [("image", .int 3)] (.int 3) rfl
     (fun _ h => PyVal.noConfusion h),
   (base64_to_pil_none_or_missing_key pilM).2.2.2 [("image", .str "")] rfl⟩

/-! ## Claim C5 -/

/-- Claim C5: for every payload whose resolved value is a non-string, or an
empty/whitespace-only string, `base64_to_pil` fails with the documented
`InvalidInput` `ValueError`; for strings whose content does not base64-decode
into a parseable image it fails with the documented `DecodeError`
(`"Failed to decode base64 image: ..."` wrapping the underlying failure);
and it never produces any other fault: every error it can return is one of
these two kinds. -/
theorem base64_to_pil_error_taxonomy {Img Arr : Type} (P : PilModel Img Arr)
    (data : PyVal) :
    ((∀ s, resolveImageField data ≠ .str s) →
      base64_to_pil P data =
        .error ⟨.invalidInput, "Invalid base64 input: must be a non-empty string"⟩) ∧
    (∀ s : String, resolveImageField data = .str s →
      s.data.all Char.isWhitespace = true →
      base64_to_pil P data =
        .error ⟨.invalidInput, "Invalid base64 input: must be a non-empty string"⟩) ∧
    (∀ s : String, resolveImageField data = .str s →
      s.data.all Char.isWhitespace = false →
      b64decodeChunks (stripDataHeader s.data) = Option.none →
      base64_to_pil P data =
        .error ⟨.decodeError, "Failed to decode base64 image: Invalid base64-encoded string"⟩) ∧
    (∀ (s : String) (bytes : List Nat), resolveImageField data = .str s →
      s.data.all Char.isWhitespace = false →
      b64decodeChunks (stripDataHeader s.data) = some bytes →
      P.openImg bytes = Option.none →
      base64_to_pil P data =
        .error ⟨.decodeError, "Failed to decode base64 image: cannot identify image file"⟩) ∧
    (∀ e, base64_to_pil P data = .error e →
      e.kind = .invalidInput ∨ e.kind = .decodeError) := by
  refine ⟨?_, ?_, ?_, ?_, ?_⟩
  · intro hne
    unfold base64_to_pil
    cases hres : resolveImageField data with
    | str s => exact absurd hres (hne s)
    | none => rfl
    | bool b => rfl
    | int n => rfl
    | list l => rfl
    | dict d => rfl
  · intro s hres hws
    simp [base64_to_pil, hres, hws]
  · intro s hres hws hdec
    simp [base64_to_pil, hres, hws, hdec]
  · intro s bytes hres hws hdec hopen
    simp [base64_to_pil, hres, hws, hdec, hopen]
  · intro e he
    unfold base64_to_pil at he
    cases hres : resolveImageField data with
    | str s =>
      rw [hres] at he
      by_cases hws : s.data.all Char.isWhitespace
      · simp only [hws, if_true] at he
        injection he with he
        rw [← he]
        exact Or.inl rfl
      · simp only [Bool.not_eq_true] at hws
        simp only [hws, Bool.false_eq_true, if_false] at he
        cases hdec : b64decodeChunks (stripDataHeader s.data) with
        | none =>
          simp only [hdec] at he
          injection he with he
          rw [← he]
          exact Or.inr rfl
        | some bytes =>
          simp only [hdec] at he
          cases hopen : P.openImg bytes with
          | none =>
            simp only [hopen] at he
            injection he with he
            rw [← he]
            exact Or.inr rfl
          | some img =>
            simp only [hopen] at he
            exact Except.noConfusion he
    | none => rw [hres] at he; injection he with he; rw [← he]; exact Or.inl rfl
    | bool b => rw [hres] at he; injection he with he; rw [← he]; exact Or.inl rfl
    | int n => rw [hres] at he; injection he with he; rw [← he]; exact Or.inl rfl
    | list l => rw [hres] at he; injection he with he; rw [← he]; exact Or.inl rfl
    | dict d => rw [hres] at he; injection he with he; rw [← he]; exact Or.inl rfl

/-- Witness for C5: a truthy non-string payload, a whitespace-only string,
and a string that is not valid base64. -/
theorem base64_to_pil_error_taxonomy_witness :
    base64_to_pil pilM (.int 7) =
      .error ⟨.invalidInput, "Invalid base64 input: must be a non-empty string"⟩ ∧
    base64_to_pil pilM (.str "  ") =
      .error ⟨.invalidInput, "Invalid base64 input: must be a non-empty string"⟩ ∧
    base64_to_pil pilM (.str "!!!!") =
      .error ⟨.decodeError, "Failed to decode base64 image: Invalid base64-encoded string"⟩ :=
  ⟨(base64_to_pil_error_taxonomy pilM (.int 7)).1 (fun _ h => PyVal.noConfusion h),
   (base64_to_pil_error_taxonomy pilM (.str "  ")).2.1 "  " rfl (by decide),
   (base64_to_pil_error_taxonomy pilM (.str "!!!!")).2.2.1 "!!!!" rfl (by decide) rfl⟩

/-- On a non-whitespace string whose (header-stripped) content decodes to
bytes that PIL can open, `base64_to_pil` returns the RGB-converted image. -/
theorem base64_to_pil_str_ok {Img Arr : Type} (P : PilModel Img Arr) (s : String)
    (hws : s.data.all Char.isWhitespace = false)
    (bytes : List Nat) (hstrip : b64decodeChunks (stripDataHeader s.data) = some bytes)
    (img : Img) (hopen : P.openImg bytes = some img) :
    base64_to_pil P (.str s) = .ok (P.convertRGB img) := by
  have hsne : s ≠ "" := by
    intro h
    rw [h] at hws
    exact Bool.noConfusion hws
  have htr : pyTruthy (.str s) = true := by
    simp only [pyTruthy, bne_iff_ne, ne_eq]
    exact hsne
  have hres : resolveImageField (.str s) = .str s := by
    simp [resolveImageField, htr]
  unfold base64_to_pil
  rw [hres]
  simp only [hws, Bool.false_eq_true, if_false, hstrip, hopen]

/-! ## Claim C9 -/

/-- Claim C9: for every well-formed base64 image payload — bytes that PIL can
open — `base64_to_pil` succeeds whether or not the payload carries a
`data:image/<type>;base64,` prefix: the prefix is stripped by pattern match
before decoding, and the result is the RGB-normalised image
(`convert("RGB")`, whose output PIL guarantees to be in mode `"RGB"`). -/
theorem base64_to_pil_wellformed_succeeds {Img Arr : Type} (P : PilModel Img Arr)
    (bytes : List Nat) (img : Img)
    (hb : ∀ b ∈ bytes, b < 256) (hne : bytes ≠ [])
    (hopen : P.openImg bytes = some img)
    (hmode : ∀ i, P.mode (P.convertRGB i) = "RGB") :
    (base64_to_pil P (.str (String.mk (b64encodeChunks bytes))) =
        .ok (P.convertRGB img) ∧
      P.mode (P.convertRGB img) = "RGB") ∧
    (∀ ext : List Char, ext ≠ [] → (∀ c ∈ ext, c.isAlpha) →
      base64_to_pil P (.str (String.mk
          ("data:image/".toList ++ ext ++ ";base64,".toList ++ b64encodeChunks bytes))) =
        .ok (P.convertRGB img)) := by
  have hchars := b64encode_chars bytes
  have hdec : b64decodeChunks (b64encodeChunks bytes) = some bytes := b64_roundtrip bytes hb
  constructor
  · refine ⟨?_, hmode img⟩
    refine base64_to_pil_str_ok P _ (b64encode_not_all_whitespace bytes hne) bytes ?_ img hopen
    rw [show (String.mk (b64encodeChunks bytes)).data = b64encodeChunks bytes from rfl]
    rw [stripDataHeader_noop _ hchars]
    exact hdec
  · intro ext hextne hextalpha
    have htl : "data:image/".toList ++ ext ++ ";base64,".toList ++ b64encodeChunks bytes
        = 'd' :: ("ata:image/".toList ++ ext ++ ";base64,".toList ++ b64encodeChunks bytes) := by
      rw [show ("data:image/".toList : List Char) = 'd' :: "ata:image/".toList from by decide]
      simp
    refine base64_to_pil_str_ok P _ ?_ bytes ?_ img hopen
    · rw [show (String.mk ("data:image/".toList ++ ext ++ ";base64,".toList ++
          b64encodeChunks bytes)).data = "data:image/".toList ++ ext ++ ";base64,".toList ++
          b64encodeChunks bytes from rfl]
      rw [htl, List.all_cons]
      rw [show ('d' : Char).isWhitespace = false from by decide]
      rw [Bool.false_and]
    · rw [show (String.mk ("data:image/".toList ++ ext ++ ";base64,".toList ++
          b64encodeChunks bytes)).data = "data:image/".toList ++ ext ++ ";base64,".toList ++
          b64encodeChunks bytes from rfl]
      rw [stripDataHeader_exact ext (b64encodeChunks bytes) hextne hextalpha]
      exact hdec

/-- Witness for C9: the byte `0x00`, base64 `AA==`, with and without a
`data:image/png;base64,` prefix. -/
theorem base64_to_pil_wellformed_succeeds_witness :
    (base64_to_pil pilM (.str (String.mk (b64encodeChunks [0]))) =
        .ok (pilM.convertRGB ⟨[0], by decide⟩) ∧
      pilM.mode (pilM.convertRGB ⟨[0], by decide⟩) = "RGB") ∧
    base64_to_pil pilM (.str (String.mk
        ("data:image/".toList ++ ['p', 'n', 'g'] ++ ";base64,".toList ++
          b64encodeChunks [0]))) =
      .ok (pilM.convertRGB ⟨[0], by decide⟩) :=
  ⟨(base64_to_pil_wellformed_succeeds pilM [0] ⟨[0], by decide⟩ (by decide) (by decide)
      rfl (fun _ => rfl)).1,
   (base64_to_pil_wellformed_succeeds pilM [0] ⟨[0], by decide⟩ (by decide) (by decide)
      rfl (fun _ => rfl)).2 ['p', 'n', 'g'] (by decide) (by decide)⟩

/-! ## Claim C2 -/

/-- Every successful decode result is `convert("RGB")` of some opened image. -/
theorem base64_to_pil_ok_shape {Img Arr : Type} (P : PilModel Img Arr) (x : PyVal)
    (img : Img) (h : base64_to_pil P x = .ok img) : ∃ i, img = P.convertRGB i := by
  unfold base64_to_pil at h
  cases hres : resolveImageField x with
  | str s =>
    rw [hres] at h
    by_cases hws : s.data.all Char.isWhitespace
    · simp only [hws, if_true] at h
      exact Except.noConfusion h
    · simp only [Bool.not_eq_true] at hws
      simp only [hws, Bool.false_eq_true, if_false] at h
      cases hdec : b64decodeChunks (stripDataHeader s.data) with
      | none =>
        simp only [hdec] at h
        exact Except.noConfusion h
      | some bytes =>
        simp only [hdec] at h
        cases hopen : P.openImg bytes with
        | none =>
          simp only [hopen] at h
          exact Except.noConfusion h
        | some i =>
          simp only [hopen] at h
          injection h with h
          exact ⟨i, h.symm⟩
  | none => rw [hres] at h; exact Except.noConfusion h
  | bool b => rw [hres] at h; exact Except.noConfusion h
  | int n => rw [hres] at h; exact Except.noConfusion h
  | list l => rw [hres] at h; exact Except.noConfusion h
  | dict d => rw [hres] at h; exact Except.noConfusion h

/-- Counterexample to C2 as stated: on the valid payload `"AA=="` the decode
succeeds, but the literal composition `np_to_base64(base64_to_pil(x))` does
not — `base64_to_pil` returns a PIL image while `np_to_base64` accepts only a
numpy array and raises `TypeError("Expected numpy array")`. -/
theorem encode_after_decode_counterexample :
    base64_to_pil pilM (.str "AA==") = .ok ⟨[0], by decide⟩ ∧
    encodeAfterDecode (.str "AA==") = .error "Expected numpy array" :=
  ⟨rfl, rfl⟩

/-- Claim C2 (amended): for every valid payload `x`, encoding the *array
form* of the decoded image — `np_to_base64(np.array(base64_to_pil(x)))` —
succeeds and produces a PNG data URI that, decoded again by
`base64_to_pil`, yields the identical image.  The PIL/numpy facts this
relies on (PNG write/read round-trip, `convert("RGB")` idempotent on RGB
images, `fromarray ∘ np.array` identity on RGB images, bytes are bytes)
enter as explicit hypotheses on the opaque model. -/
theorem roundtrip_after_array_conversion {Img Arr : Type} (P : PilModel Img Arr)
    (hsave : ∀ i, P.mode i = "RGB" → ∀ b ∈ P.savePNG i, b < 256)
    (hopen : ∀ i, P.mode i = "RGB" → P.openImg (P.savePNG i) = some i)
    (hconv : ∀ i, P.mode i = "RGB" → P.convertRGB i = i)
    (hmode : ∀ i, P.mode (P.convertRGB i) = "RGB")
    (hfromto : ∀ i, P.mode i = "RGB" → P.fromarray (P.toArray i) = i)
    (x : PyVal) (img : Img) (hx : base64_to_pil P x = .ok img) :
    np_to_base64 P (.ndarray (P.toArray img)) =
      .ok ("data:image/png;base64," ++ String.mk (b64encodeChunks (P.savePNG img))) ∧
    base64_to_pil P
        (.str ("data:image/png;base64," ++ String.mk (b64encodeChunks (P.savePNG img)))) =
      .ok img := by
  obtain ⟨i0, hi0⟩ := base64_to_pil_ok_shape P x img hx
  have hRGB : P.mode img = "RGB" := by rw [hi0]; exact hmode i0
  constructor
  · simp only [np_to_base64]
    rw [hfromto img hRGB]
  · have hdata : ("data:image/png;base64," ++
        String.mk (b64encodeChunks (P.savePNG img))).data =
        "data:image/".toList ++ ['p', 'n', 'g'] ++ ";base64,".toList ++
          b64encodeChunks (P.savePNG img) := by
      rw [String.data_append]
      rw [show ("data:image/png;base64,".data : List Char) =
        "data:image/".toList ++ ['p', 'n', 'g'] ++ ";base64,".toList from by decide]
    have hres : base64_to_pil P (.str ("data:image/png;base64," ++
        String.mk (b64encodeChunks (P.savePNG img)))) = .ok (P.convertRGB img) := by
      refine base64_to_pil_str_ok P _ ?_ (P.savePNG img) ?_ img (hopen img hRGB)
      · rw [hdata]
        rw [show ("data:image/".toList : List Char) = 'd' :: "ata:image/".toList from by decide]
        rw [List.cons_append, List.cons_append, List.cons_append, List.all_cons]
        rw [show ('d' : Char).isWhitespace = false from by decide]
        rw [Bool.false_and]
      · rw [hdata]
        rw [stripDataHeader_exact ['p', 'n', 'g'] (b64encodeChunks (P.savePNG img))
          (by decide) (by decide)]
        exact b64_roundtrip (P.savePNG img) (hsave img hRGB)
    rw [hres, hconv img hRGB]

/-- Witness for the amended C2 over the concrete model on payload `"AA=="`. -/
theorem roundtrip_after_array_conversion_witness :
    np_to_base64 pilM (.ndarray (pilM.toArray ⟨[0], by decide⟩)) =
      .ok ("data:image/png;base64," ++ String.mk (b64encodeChunks
        (pilM.savePNG ⟨[0], by decide⟩))) ∧
    base64_to_pil pilM (.str ("data:image/png;base64," ++ String.mk (b64encodeChunks
        (pilM.savePNG ⟨[0], by decide⟩)))) = .ok ⟨[0], by decide⟩ :=
  roundtrip_after_array_conversion pilM
    (fun i _ => i.2)
    (fun i _ => dif_pos i.2)
    (fun _ _ => rfl)
    (fun _ => rfl)
    (fun _ _ => rfl)
    (.str "AA==") ⟨[0], by decide⟩ rfl

/-! ## Claim C6 -/

/-- Without the session flag and without a non-empty `sb-access-token`
cookie, the auth gate rejects. -/
theorem isAuthenticated_false_of_no_session_no_cookie (req : Req)
    (hs : req.sessionUser = false)
    (hc : ∀ t, dget req.cookies "sb-access-token" = some t → t = "") :
    isAuthenticated req = false := by
  unfold isAuthenticated
  rw [hs]
  cases hck : dget req.cookies "sb-access-token" with
  | none => rfl
  | some t =>
    have := hc t hck
    subst this
    rfl

/-- Claim C6: `/predict` without the session flag and without a non-empty
`sb-access-token` cookie returns 401 — and the response is the same whatever
the decoding and scoring functions are, i.e. the inference pipeline is never
consulted; on an authenticated request, a decode failure is caught and turned
into a 500 `{error: message}`, and on success the body is
`{result: label}` with the thresholded label. -/
theorem predict_auth_and_errors {Img Arr : Type} (P : PilModel Img Arr)
    (score : Img → ℚ) (req : Req) :
    (req.sessionUser = false →
      (∀ t, dget req.cookies "sb-access-token" = some t → t = "") →
      predict P score req = ⟨401, [("error", .str "unauthorized")], []⟩ ∧
      (∀ {Img2 Arr2 : Type} (P2 : PilModel Img2 Arr2) (score2 : Img2 → ℚ),
        predict P2 score2 req = ⟨401, [("error", .str "unauthorized")], []⟩)) ∧
    (isAuthenticated req = true →
      (∀ e, base64_to_pil P req.body = .error e →
        predict P score req = ⟨500, [("error", .str e.msg)], []⟩) ∧
      (∀ img, base64_to_pil P req.body = .ok img →
        predict P score req =
          ⟨200, [("result", .str (classify (score (P.loadResized img))))], []⟩)) := by
  constructor
  · intro hs hc
    have hauth := isAuthenticated_false_of_no_session_no_cookie req hs hc
    constructor
    · simp [predict, hauth]
    · intro Img2 Arr2 P2 score2
      simp [predict, hauth]
  · intro hauth
    constructor
    · intro e he
      simp [predict, hauth, he]
    · intro img himg
      simp [predict, hauth, himg]

/-- Witness for C6: an unauthenticated request (cookie jar without the
token) is refused with 401; an authenticated request with a `None` body gets
the caught 500; an authenticated request with a valid payload gets the
classified result. -/
theorem predict_auth_and_errors_witness :
    predict pilM (fun _ => (1 : ℚ)) ⟨false, [("other", "x")], .none⟩ =
      ⟨401, [("error", .str "unauthorized")], []⟩ ∧
    predict pilM (fun _ => (1 : ℚ)) ⟨true, [], .none⟩ =
      ⟨500, [("error", .str "Invalid base64 input: must be a non-empty string")], []⟩ ∧
    predict pilM (fun _ => (1 : ℚ)) ⟨true, [], .str "AA=="⟩ =
      ⟨200, [("result", .str (classify ((fun _ => (1 : ℚ))
        (pilM.loadResized (pilM.convertRGB ⟨[0], by decide⟩)))))], []⟩ :=
  ⟨((predict_auth_and_errors pilM (fun _ => (1 : ℚ)) ⟨false, [("other", "x")], .none⟩).1
      rfl (fun t h => by exact Option.noConfusion h)).1,
   ((predict_auth_and_errors pilM (fun _ => (1 : ℚ)) ⟨true, [], .none⟩).2 rfl).1
      ⟨.invalidInput, "Invalid base64 input: must be a non-empty string"⟩ rfl,
   ((predict_auth_and_errors pilM (fun _ => (1 : ℚ)) ⟨true, [], .str "AA=="⟩).2 rfl).2
      (pilM.convertRGB ⟨[0], by decide⟩) rfl⟩

/-! ## Claim C7 -/

/-- Claim C7: `POST /session` with a JSON object lacking a truthy
`access_token` (in particular the empty body `{}`) returns 400 and sets no
cookie; with a non-empty string token it returns `{ok: true}` and sets an
HTTP-only `sb-access-token` cookie holding the token verbatim, path `/`,
`SameSite=Lax`, 7-day max age, and `Secure` exactly when the `COOKIE_SECURE`
environment toggle is `"1"`. -/
theorem create_session_contract (env : Option String) :
    (create_session env (some (.dict [])) =
      .ok ⟨400, [("error", .str "missing access_token")], []⟩) ∧
    (∀ kvs, dget kvs "access_token" = Option.none →
      create_session env (some (.dict kvs)) =
        .ok ⟨400, [("error", .str "missing access_token")], []⟩) ∧
    (∀ kvs v, dget kvs "access_token" = some v → pyTruthy v = false →
      create_session env (some (.dict kvs)) =
        .ok ⟨400, [("error", .str "missing access_token")], []⟩) ∧
    (∀ kvs t, dget kvs "access_token" = some (.str t) → t ≠ "" →
      create_session env (some (.dict kvs)) =
        .ok ⟨200, [("ok", .bool true)],
          [⟨"sb-access-token", t, true, env.getD "0" == "1", "Lax", "/",
            60 * 60 * 24 * 7⟩]⟩) := by
  refine ⟨rfl, ?_, ?_, ?_⟩
  · intro kvs h
    match kvs with
    | [] => rfl
    | (k, v) :: rest =>
      simp [create_session, pyGetAttrD, pyTruthy, h]
  · intro kvs v h hv
    match kvs with
    | [] => exact absurd h (by simp [dget])
    | (k, w) :: rest =>
      have hd : pyTruthy (.dict ((k, w) :: rest)) = true := rfl
      simp [create_session, pyGetAttrD, h, hv, hd]
  · intro kvs t h ht
    match kvs with
    | [] => exact absurd h (by simp [dget])
    | (k, w) :: rest =>
      have hd : pyTruthy (.dict ((k, w) :: rest)) = true := rfl
      have htr : pyTruthy (.str t) = true := by
        simp only [pyTruthy, bne_iff_ne, ne_eq]
        exact ht
      simp [create_session, pyGetAttrD, h, htr, hd]

/-- Witness for C7: a concrete token with `COOKIE_SECURE=1`, plus the empty
body. -/
theorem create_session_contract_witness :
    create_session (some "1") (some (.dict [])) =
      .ok ⟨400, [("error", .str "missing access_token")], []⟩ ∧
    create_session (some "1") (some (.dict [("access_token", .str "tok")])) =
      .ok ⟨200, [("ok", .bool true)],
        [⟨"sb-access-token", "tok", true, (some "1").getD "0" == "1", "Lax", "/",
          60 * 60 * 24 * 7⟩]⟩ :=
  ⟨(create_session_contract (some "1")).1,
   (create_session_contract (some "1")).2.2.2 [("access_token", .str "tok")] "tok" rfl
     (by decide)⟩

/-! ## Claim C8 -/

/-- Claim C8: an authenticated `/gemini` request whose `message` is empty or
absent gets 400 `{error: 'message is required'}` — and the result is the
same for every API-key configuration and every possible upstream outcome,
i.e. the 400 precedes both the API-key check and the outbound call, so no
upstream traffic is needed to produce it. -/
theorem gemini_empty_message_400 (req : Req) (ha : isAuthenticated req = true)
    (kvs : List (String × PyVal))
    (hm : dget kvs "message" = Option.none ∨ dget kvs "message" = some (.str "")) :
    ∀ (apiKey : Option String) (outbound : Except String Upstream),
      gemini_proxy req (some (.dict kvs)) apiKey outbound =
        .ok ⟨400, [("error", .str "message is required")], []⟩ := by
  intro apiKey outbound
  match kvs with
  | [] =>
    simp [gemini_proxy, ha, pyGetAttrD, pyTruthy, dget]
  | (k, v) :: rest =>
    rcases hm with hm | hm
    · simp [gemini_proxy, ha, pyGetAttrD, pyTruthy, hm]
    · simp [gemini_proxy, ha, pyGetAttrD, pyTruthy, hm]

/-- Witness for C8: concrete authenticated request, message absent, with a
configured key and an upstream that would fail — the 400 wins regardless. -/
theorem gemini_empty_message_400_witness :
    gemini_proxy ⟨true, [], .none⟩ (some (.dict [("model", .str "m")])) (some "key")
      (.error "connection refused") =
      .ok ⟨400, [("error", .str "message is required")], []⟩ ∧
    gemini_proxy ⟨true, [], .none⟩ (some (.dict [("message", .str "")])) Option.none
      (.error "connection refused") =
      .ok ⟨400, [("error", .str "message is required")], []⟩ :=
  ⟨gemini_empty_message_400 ⟨true, [], .none⟩ rfl [("model", .str "m")] (Or.inl rfl)
      (some "key") (.error "connection refused"),
   gemini_empty_message_400 ⟨true, [], .none⟩ rfl [("message", .str "")] (Or.inr rfl)
      Option.none (.error "connection refused")⟩

/-! ## Claims C3 and C4 -/

/-- An authenticated `/gemini` request with a non-empty message and a
configured key always reaches the `try` block around the upstream call. -/
theorem gemini_proxy_reaches_upstream (req : Req) (ha : isAuthenticated req = true)
    (kvs : List (String × PyVal)) (m : String)
    (hm : dget kvs "message" = some (.str m)) (hmne : m ≠ "")
    (k : String) (hk : k ≠ "") (outbound : Except String Upstream) :
    gemini_proxy req (some (.dict kvs)) (some k) outbound = .ok (geminiTry outbound) := by
  match kvs with
  | [] => exact absurd hm (by simp [dget])
  | (k0, v0) :: rest =>
    have hd : pyTruthy (.dict ((k0, v0) :: rest)) = true := rfl
    have htr : pyTruthy (.str m) = true := by
      simp only [pyTruthy, bne_iff_ne, ne_eq]
      exact hmne
    simp [gemini_proxy, ha, pyGetAttrD, hm, hd, htr, hk]

/-- Counterexample to C3 as stated.  First conjunct: an upstream `304` — a
non-2xx status — is *not* mapped to 502: the code tests `not r.ok`
(status ≥ 400), so a 304 flows down the success path and yields 200.
Second and third conjuncts: two non-JSON upstream failures with the *same*
status line but different bodies produce different `error` values
(`f'HTTP {code}: {r.text}'` includes the body), so the error is not derived
from the status line alone. -/
theorem gemini_upstream_error_counterexample :
    gemini_proxy ⟨true, [], .none⟩ (some (.dict [("message", .str "hi")])) (some "key")
        (.ok ⟨304, "application/json",
          some (.dict [("candidates", .list [.dict [("content", .dict [("parts",
            .list [.dict [("text", .str "ok")]])])]])]), "cached"⟩) =
      .ok ⟨200, [("reply", .str "ok"), ("raw",
        .dict [("candidates", .list [.dict [("content", .dict [("parts",
          .list [.dict [("text", .str "ok")]])])]])])], []⟩ ∧
    gemini_proxy ⟨true, [], .none⟩ (some (.dict [("message", .str "hi")])) (some "key")
        (.ok ⟨500, "text/html", Option.none, "alpha"⟩) =
      .ok ⟨502, [("error", .str "HTTP 500: alpha"), ("detail", .dict [])], []⟩ ∧
    gemini_proxy ⟨true, [], .none⟩ (some (.dict [("message", .str "hi")])) (some "key")
        (.ok ⟨500, "text/html", Option.none, "beta"⟩) =
      .ok ⟨502, [("error", .str "HTTP 500: beta"), ("detail", .dict [])], []⟩ :=
  ⟨rfl, rfl, rfl⟩

/-- Claim C3 (amended): for an authenticated `/gemini` request with a
non-empty message and a configured key, when the upstream response status is
≥ 400 (`not r.ok`), the handler returns 502 with an `error` field equal to
the upstream JSON object's nested `error.message` when the content type is
JSON and that field exists, and otherwise equal to the fallback
`'HTTP <status>: <body text>'` (derived from the status code *and* the raw
body). -/
theorem gemini_upstream_error_502 (req : Req) (ha : isAuthenticated req = true)
    (kvs : List (String × PyVal)) (m : String)
    (hm : dget kvs "message" = some (.str m)) (hmne : m ≠ "")
    (k : String) (hk : k ≠ "") (up : Upstream) (hnok : 400 ≤ up.statusCode) :
    (isJsonCT up = false →
      gemini_proxy req (some (.dict kvs)) (some k) (.ok up) =
        .ok ⟨502, [("error", .str (geminiFallback up)), ("detail", .dict [])], []⟩) ∧
    (∀ ekvs, isJsonCT up = true → up.jsonBody = some (.dict ekvs) →
      (dget ekvs "error" = Option.none →
        gemini_proxy req (some (.dict kvs)) (some k) (.ok up) =
          .ok ⟨502, [("error", .str (geminiFallback up)), ("detail", .dict ekvs)], []⟩) ∧
      (∀ mkvs, dget ekvs "error" = some (.dict mkvs) →
        gemini_proxy req (some (.dict kvs)) (some k) (.ok up) =
          .ok ⟨502, [("error", (dget mkvs "message").getD (.str (geminiFallback up))),
            ("detail", .dict ekvs)], []⟩)) := by
  have hpre := gemini_proxy_reaches_upstream req ha kvs m hm hmne k hk (.ok up)
  constructor
  · intro hct
    rw [hpre]
    simp [geminiTry, geminiNotOk, pyGetAttrD, dget, hnok, hct]
  · intro ekvs hct hjson
    constructor
    · intro herr
      rw [hpre]
      simp [geminiTry, geminiNotOk, pyGetAttrD, dget, hnok, hct, hjson, herr]
    · intro mkvs herr
      rw [hpre]
      simp [geminiTry, geminiNotOk, pyGetAttrD, dget, hnok, hct, hjson, herr]

/-- Witness for the amended C3: a non-JSON 500 falls back to
`HTTP 500: oops`, and a JSON 404 carrying `error.message` surfaces it. -/
theorem gemini_upstream_error_502_witness :
    gemini_proxy ⟨true, [], .none⟩ (some (.dict [("message", .str "hi")])) (some "key")
        (.ok ⟨500, "text/html", Option.none, "oops"⟩) =
      .ok ⟨502, [("error", .str (geminiFallback ⟨500, "text/html", Option.none, "oops"⟩)),
        ("detail", .dict [])], []⟩ ∧
    gemini_proxy ⟨true, [], .none⟩ (some (.dict [("message", .str "hi")])) (some "key")
        (.ok ⟨404, "application/json",
          some (.dict [("error", .dict [("message", .str "not found")])]), "x"⟩) =
      .ok ⟨502, [("error", (dget [("message", .str "not found")] "message").getD
        (.str (geminiFallback ⟨404, "application/json",
          some (.dict [("error", .dict [("message", .str "not found")])]), "x"⟩))),
        ("detail", .dict [("error", .dict [("message", .str "not found")])])], []⟩ :=
  ⟨(gemini_upstream_error_502 ⟨true, [], .none⟩ rfl [("message", .str "hi")] "hi" rfl
      (by decide) "key" (by decide) ⟨500, "text/html", Option.none, "oops"⟩
      (by norm_num)).1 rfl,
   ((gemini_upstream_error_502 ⟨true, [], .none⟩ rfl [("message", .str "hi")] "hi" rfl
      (by decide) "key" (by decide)
      ⟨404, "application/json", some (.dict [("error", .dict [("message", .str "not found")])]),
        "x"⟩ (by norm_num)).2
      [("error", .dict [("message", .str "not found")])] rfl rfl).2
      [("message", .str "not found")] rfl⟩

/-- Counterexample to C4 as stated: a 2xx JSON response whose shape is wrong
by *type* (`candidates` is a number, so subscripting raises `TypeError`, which
the inner `except (KeyError, IndexError)` does not catch) produces HTTP 500
`unexpected error`, not a success with an empty reply. -/
theorem gemini_extract_counterexample :
    gemini_proxy ⟨true, [], .none⟩ (some (.dict [("message", .str "hi")])) (some "key")
        (.ok ⟨200, "application/json", some (.dict [("candidates", .int 1)]), ""⟩) =
      .ok ⟨500, [("error", .str "unexpected error"),
        ("detail", .str "'int' object is not subscriptable")], []⟩ :=
  rfl

/-- Claim C4 (amended): on a 2xx upstream JSON response the handler extracts
`data['candidates'][0]['content']['parts'][0]['text']` as the reply; a shape
failure that raises `KeyError` or `IndexError` (missing keys, empty lists)
is caught and defaults the reply to `""` with a success response, but a
shape failure that raises `TypeError` (wrongly-typed nesting) escapes the
inner handler and produces HTTP 500 `unexpected error`. -/
theorem gemini_extract_reply (req : Req) (ha : isAuthenticated req = true)
    (kvs : List (String × PyVal)) (m : String)
    (hm : dget kvs "message" = some (.str m)) (hmne : m ≠ "")
    (k : String) (hk : k ≠ "") (up : Upstream) (hok : up.statusCode < 400)
    (d : PyVal) (hjson : up.jsonBody = some d) :
    (∀ t, extractText d = .ok t →
      gemini_proxy req (some (.dict kvs)) (some k) (.ok up) =
        .ok ⟨200, [("reply", t), ("raw", d)], []⟩) ∧
    (∀ e, extractText d = .error e → e.kind = .keyError ∨ e.kind = .indexError →
      gemini_proxy req (some (.dict kvs)) (some k) (.ok up) =
        .ok ⟨200, [("reply", .str ""), ("raw", d)], []⟩) ∧
    (∀ e, extractText d = .error e → e.kind = .typeError →
      gemini_proxy req (some (.dict kvs)) (some k) (.ok up) =
        .ok ⟨500, [("error", .str "unexpected error"), ("detail", .str e.msg)], []⟩) := by
  have hpre := gemini_proxy_reaches_upstream req ha kvs m hm hmne k hk (.ok up)
  have hnotge : ¬ 400 ≤ up.statusCode := by omega
  refine ⟨?_, ?_, ?_⟩
  · intro t hext
    rw [hpre]
    simp [geminiTry, hnotge, hjson, hext]
  · intro e hext hkind
    rw [hpre]
    rcases e with ⟨kind, msg⟩
    rcases hkind with h | h
    · have h' : kind = PyErrKind.keyError := h
      subst h'
      simp [geminiTry, hnotge, hjson, hext]
    · have h' : kind = PyErrKind.indexError := h
      subst h'
      simp [geminiTry, hnotge, hjson, hext]
  · intro e hext hkind
    rw [hpre]
    rcases e with ⟨kind, msg⟩
    have h' : kind = PyErrKind.typeError := hkind
    subst h'
    simp [geminiTry, hnotge, hjson, hext]

/-- Witness for the amended C4: a well-shaped candidate list yields its text
as the reply; an empty JSON object (`KeyError`) yields the empty reply with
a 200. -/
theorem gemini_extract_reply_witness :
    gemini_proxy ⟨true, [], .none⟩ (some (.dict [("message", .str "hi")])) (some "key")
        (.ok ⟨200, "application/json",
          some (.dict [("candidates", .list [.dict [("content", .dict [("parts",
            .list [.dict [("text", .str "hello")]])])]])]), ""⟩) =
      .ok ⟨200, [("reply", .str "hello"), ("raw",
        .dict [("candidates", .list [.dict [("content", .dict [("parts",
          .list [.dict [("text", .str "hello")]])])]])])], []⟩ ∧
    gemini_proxy ⟨true, [], .none⟩ (some (.dict [("message", .str "hi")])) (some "key")
        (.ok ⟨200, "application/json", some (.dict []), ""⟩) =
      .ok ⟨200, [("reply", .str ""), ("raw", .dict [])], []⟩ :=
  ⟨(gemini_extract_reply ⟨true, [], .none⟩ rfl [("message", .str "hi")] "hi" rfl (by decide)
      "key" (by decide)
      ⟨200, "application/json",
        some (.dict [("candidates", .list [.dict [("content", .dict [("parts",
          .list [.dict [("text", .str "hello")]])])]])]), ""⟩ (by norm_num)
      (.dict [("candidates", .list [.dict [("content", .dict [("parts",
        .list [.dict [("text", .str "hello")]])])]])]) rfl).1 (.str "hello") rfl,
   (gemini_extract_reply ⟨true, [], .none⟩ rfl [("message", .str "hi")] "hi" rfl (by decide)
      "key" (by decide) ⟨200, "application/json", some (.dict []), ""⟩ (by norm_num)
      (.dict []) rfl).2.1 ⟨.keyError, "'candidates'"⟩ rfl (Or.inl rfl)⟩

end LungXray
